import Mathlib

/-!
Verification development for the BrainDrive OpenAI plugin repository.

The repository has two components:
* `lifecycle_manager.py` — per-user plugin install/uninstall over an async
  SQLAlchemy session and the filesystem;
* `build_archive.py` — a CLI that packs a directory tree into a `.tar.gz`
  archive with an exclusion filter.

We model paths as lists of components, the filesystem as the list of
existing paths, and the SQLAlchemy session as a pair of stores: the
committed store and the session view (committed data plus pending, flushed
changes; `commit` publishes the session view, `rollback` restores the
committed one).  Each operation additionally emits a trace of events so
that ordering properties (what happens before the commit) can be stated.
Exceptions raised by the environment (filesystem errors, database driver
errors) are injected through a `Faults` record; the Python code catches
them either inside a helper or at the operation boundary, and the model
mirrors exactly which handler sees each fault.
-/

namespace BrainDrive

/-- A filesystem path, as its components (`plugins/alice/X` is
`["plugins", "alice", "X"]`). -/
abbrev Path := List String

/-- The filesystem: the set of existing paths (files and directories
alike), as a list. -/
abbrev FS := List Path

/-- Existence check: `hasPath fs p` is `Path(p).exists()`. -/
def hasPath (fs : FS) (p : Path) : Bool :=
  fs.any (fun q => decide (q = p))

/-- Subtree test `underPath p q`: `q` lies in the subtree rooted at `p`
(`p` is an initial segment of `q`, `q = p` included). -/
def underPath : Path → Path → Bool
  | [], _ => true
  | _ :: _, [] => false
  | a :: as, b :: bs => decide (a = b) && underPath as bs

/-- The proper, nonempty initial segments of a path together with the path
itself: the chain of directories `mkdir(parents=True)` creates. -/
def ancestorPaths (p : Path) : List Path :=
  (List.range p.length).map (fun k => p.take (k + 1))

/-- Add a single path if absent (`shutil.copy2` to a destination, or one
`mkdir` step). -/
def addPath (fs : FS) (p : Path) : FS :=
  if hasPath fs p then fs else p :: fs

/-- Model of `Path(p).mkdir(parents=True, exist_ok=True)`: create the path and all
its ancestors. -/
def mkdirParents (fs : FS) (p : Path) : FS :=
  (ancestorPaths p).foldl addPath fs

/-- Model of `shutil.rmtree(p)`: remove the subtree rooted at `p`. -/
def rmtree (fs : FS) (p : Path) : FS :=
  fs.filter (fun q => !(underPath p q))

/-- Model of `shutil.copytree(src, dst)`: every path in the subtree of `src`
reappears relocated under `dst` (the roots included). -/
def copytree (fs : FS) (src dst : Path) : FS :=
  fs.foldl (fun acc q =>
    if underPath src q then addPath acc (dst ++ q.drop src.length) else acc) fs

/-- One settings-instance row (`SettingsInstance`): the columns the
lifecycle manager reads or writes. -/
structure SettingsInst where
  id : String
  definitionId : String
  userId : String
deriving Repr, DecidableEq

/-- One store of records: plugin ids, module rows `(id, plugin_id)`,
settings-definition ids, and settings-instance rows. -/
structure Store where
  plugins : List String
  modules : List (String × String)
  settingsDefs : List String
  settingsInstances : List SettingsInst
deriving Repr, DecidableEq

/-- The database session: the committed store and the session view
(committed data plus pending changes, which SQLAlchemy's autoflush makes
visible to queries on the same session). -/
structure DB where
  committed : Store
  session : Store
deriving Repr, DecidableEq

/-- Model of `await db.commit()`. -/
def dbCommit (db : DB) : DB := ⟨db.session, db.session⟩

/-- Model of `await db.rollback()`. -/
def dbRollback (db : DB) : DB := ⟨db.committed, db.committed⟩

/-- The world an operation acts on: filesystem plus database. -/
structure World where
  fs : FS
  db : DB
deriving Repr, DecidableEq

/-- Observable actions, recorded in order, so that "X happens before the
commit" is a statement about the trace. -/
inductive Event where
  | mkdir (p : Path)
  | rmtree (p : Path)
  | copytree (src dst : Path)
  | copyFile (src dst : Path)
  | dbAddPlugin (id : String)
  | dbAddModule (id : String)
  | dbAddSettingsDef (id : String)
  | dbAddInstance (id : String)
  | dbDeleteModule (id : String)
  | dbDeletePlugin (id : String)
  | dbDeleteInstance (id : String)
  | commit
  | rollback
deriving Repr, DecidableEq

/-- Injected environment failures.  Each flag set to `false` makes the
corresponding call raise; `true` everywhere is a fault-free run.
`queryOk` is the `db.execute` lookups (an exception there reaches the
operation-boundary handler); `mkdirOk`, `copyOk`, `recordsOk`,
`settingsOk` are caught inside their helper; `cleanupOk` is the `rmtree`
inside `_cleanup_user_directory` (only logged); `rmtreeOk` is the
`rmtree` inside `uninstall_plugin` (reaches the boundary handler);
`commitOk` is `db.commit()` itself. -/
structure Faults where
  queryOk : Bool
  mkdirOk : Bool
  copyOk : Bool
  recordsOk : Bool
  settingsOk : Bool
  cleanupOk : Bool
  rmtreeOk : Bool
  commitOk : Bool
deriving Repr, DecidableEq

/-- A fault-free environment. -/
def noFaults : Faults := ⟨true, true, true, true, true, true, true, true⟩

/-- Value of `self.plugin_slug`. -/
def plugin_slug : String := "BrainDriveOpenAI"

/-- Value of `f"{user_id}_{self.plugin_slug}"`. -/
def pluginIdOf (userId : String) : String := userId ++ "_" ++ plugin_slug

/-- Value of `Path(f"plugins/{user_id}/{self.plugin_slug}")`. -/
def userPluginDir (userId : String) : Path := ["plugins", userId, plugin_slug]

/-- Value of `Path(f"plugins/{self.plugin_slug}")` — the shared template tree. -/
def sourceDir : Path := ["plugins", plugin_slug]

/-- Render a path the way `str(Path(...))` does. -/
def pathStr (p : Path) : String := String.intercalate "/" p

/-- Membership of an id in a list of ids (a `select ... where id == x`
against the session view). -/
def hasId (l : List String) (x : String) : Bool :=
  l.any (fun y => decide (y = x))

/-- Constant `SettingsDefinition.id` used throughout `_create_settings` and
`uninstall_plugin`. -/
def settingsDefId : String := "openai_api_keys_settings"

/-- Result dictionary of a helper that only reports success or an error
message. -/
structure StepResult where
  success : Bool
  error : Option String
deriving Repr, DecidableEq

/-- Result dictionary of `_create_database_records`. -/
structure RecordsResult where
  success : Bool
  error : Option String
  plugin_id : Option String
  modules_created : List String
deriving Repr, DecidableEq

/-- Result dictionary of `_create_settings`. -/
structure SettingsResult where
  success : Bool
  error : Option String
  settings_created : List String
deriving Repr, DecidableEq

/-- Result dictionary of `install_plugin` (absent keys are `none`/`[]`). -/
structure InstallResult where
  success : Bool
  error : Option String
  plugin_id : Option String
  plugin_slug : Option String
  modules_created : List String
  plugin_directory : Option String
  settings_created : List String
deriving Repr, DecidableEq

/-- Result dictionary of `uninstall_plugin` (absent keys are `none`/`0`). -/
structure UninstallResult where
  success : Bool
  error : Option String
  plugin_slug : Option String
  modules_removed : Nat
  settings_removed : Nat
deriving Repr, DecidableEq

/-- Model of `_check_existing_plugin`: whether a Plugin record with id
`{user_id}_{slug}` exists, and its id when it does. -/
def checkExistingPlugin (userId : String) (db : DB) : Bool × Option String :=
  let pid := pluginIdOf userId
  let found := hasId db.session.plugins pid
  (found, if found then some pid else none)

/-- Model of `_copy_plugin_files`: fail if the shared template directory is
missing or an I/O error strikes during copying (the fault is modelled as
raised before any file lands); otherwise copy `dist/` when the template
has one (wiping a pre-existing destination `dist/` first) and
`package.json` when the template has one, and report success. -/
def copyPluginFiles (f : Faults) (dir : Path) (fs : FS) :
    StepResult × FS × List Event :=
  if !(hasPath fs sourceDir) then
    (⟨false, some ("Source plugin directory not found: " ++ pathStr sourceDir)⟩, fs, [])
  else if !f.copyOk then
    (⟨false, some "I/O error while copying plugin files"⟩, fs, [])
  else
    let distSrc := sourceDir ++ ["dist"]
    let distDst := dir ++ ["dist"]
    let s1 : FS × List Event :=
      if hasPath fs distSrc then
        let s0 : FS × List Event :=
          if hasPath fs distDst then (rmtree fs distDst, [Event.rmtree distDst])
          else (fs, [])
        (copytree s0.1 distSrc distDst, s0.2 ++ [Event.copytree distSrc distDst])
      else (fs, [])
    let pkgSrc := sourceDir ++ ["package.json"]
    let pkgDst := dir ++ ["package.json"]
    let s2 : FS × List Event :=
      if hasPath s1.1 pkgSrc then (addPath s1.1 pkgDst, s1.2 ++ [Event.copyFile pkgSrc pkgDst])
      else s1
    (⟨true, none⟩, s2.1, s2.2)

/-- Model of `_create_database_records`: stage the Plugin row and the Module row in
the session (committed data untouched). -/
def createDatabaseRecords (f : Faults) (userId : String) (db : DB) :
    RecordsResult × DB × List Event :=
  if !f.recordsOk then
    (⟨false, some "exception while creating database records", none, []⟩, db, [])
  else
    let pid := pluginIdOf userId
    let mid := userId ++ "_componentOpenAIKeys"
    let st := db.session
    let st1 : Store := { st with plugins := st.plugins ++ [pid],
                                 modules := st.modules ++ [(mid, pid)] }
    (⟨true, none, some pid, [mid]⟩, ⟨db.committed, st1⟩,
     [Event.dbAddPlugin pid, Event.dbAddModule mid])

/-- Model of `_create_settings`: stage the shared settings definition when the
session does not already see one, then unconditionally stage the per-user
settings instance; the reported `settings_created` list always carries
both ids. -/
def createSettings (f : Faults) (userId : String) (db : DB) :
    SettingsResult × DB × List Event :=
  if !f.settingsOk then
    (⟨false, some "exception while creating settings", []⟩, db, [])
  else
    let defFound := hasId db.session.settingsDefs settingsDefId
    let s1 : DB × List Event :=
      if defFound then (db, [])
      else
        (⟨db.committed,
          { db.session with settingsDefs := db.session.settingsDefs ++ [settingsDefId] }⟩,
         [Event.dbAddSettingsDef settingsDefId])
    let iid := "openai_settings_" ++ userId
    let st := s1.1.session
    let st1 : Store :=
      { st with settingsInstances := st.settingsInstances ++ [⟨iid, settingsDefId, userId⟩] }
    (⟨true, none, [settingsDefId, iid]⟩, ⟨s1.1.committed, st1⟩,
     s1.2 ++ [Event.dbAddInstance iid])

/-- Model of `_validate_installation`: the staged directory must contain `dist/`
and `dist/remoteEntry.js`. -/
def validateInstallation (dir : Path) (fs : FS) : Bool × Option String :=
  if !(hasPath fs (dir ++ ["dist"])) then (false, some "Plugin dist directory not found")
  else if !(hasPath fs (dir ++ ["dist", "remoteEntry.js"])) then
    (false, some "Plugin remoteEntry.js not found")
  else (true, none)

/-- Model of `_cleanup_user_directory`: best-effort `rmtree` of the per-user
directory; its own failure is only logged. -/
def cleanupUserDirectory (f : Faults) (dir : Path) (fs : FS) : FS × List Event :=
  if hasPath fs dir then
    if f.cleanupOk then (rmtree fs dir, [Event.rmtree dir]) else (fs, [])
  else (fs, [])

/-- Model of `install_plugin`: existence check, directory provisioning, file
staging, record staging, settings staging, validation, commit — with
compensating directory cleanup on each failure and a boundary handler
that rolls back on an unexpected exception. -/
def installPlugin (f : Faults) (userId : String) (w : World) :
    InstallResult × World × List Event :=
  if !f.queryOk then
    (⟨false, some "unexpected exception", none, none, [], none, []⟩,
     ⟨w.fs, dbRollback w.db⟩, [Event.rollback])
  else
  let check := checkExistingPlugin userId w.db
  if check.1 then
    (⟨false, some ("Plugin already installed for user " ++ userId), check.2,
      none, [], none, []⟩, w, [])
  else if !f.mkdirOk then
    (⟨false, some "Failed to create user plugin directory", none, none, [], none, []⟩, w, [])
  else
  let dir := userPluginDir userId
  let fs1 := mkdirParents w.fs dir
  let ev1 := [Event.mkdir dir]
  let cp := copyPluginFiles f dir fs1
  if !cp.1.success then
    let cl := cleanupUserDirectory f dir cp.2.1
    (⟨false, cp.1.error, none, none, [], none, []⟩, ⟨cl.1, w.db⟩, ev1 ++ cp.2.2 ++ cl.2)
  else
  let dbr := createDatabaseRecords f userId w.db
  if !dbr.1.success then
    let cl := cleanupUserDirectory f dir cp.2.1
    (⟨false, dbr.1.error, none, none, [], none, []⟩, ⟨cl.1, dbr.2.1⟩,
     ev1 ++ cp.2.2 ++ dbr.2.2 ++ cl.2)
  else
  let se := createSettings f userId dbr.2.1
  if !se.1.success then
    let cl := cleanupUserDirectory f dir cp.2.1
    (⟨false, se.1.error, none, none, [], none, []⟩, ⟨cl.1, se.2.1⟩,
     ev1 ++ cp.2.2 ++ dbr.2.2 ++ se.2.2 ++ cl.2)
  else
  let va := validateInstallation dir cp.2.1
  if !va.1 then
    let cl := cleanupUserDirectory f dir cp.2.1
    (⟨false, va.2, none, none, [], none, []⟩, ⟨cl.1, dbRollback se.2.1⟩,
     ev1 ++ cp.2.2 ++ dbr.2.2 ++ se.2.2 ++ [Event.rollback] ++ cl.2)
  else if !f.commitOk then
    (⟨false, some "unexpected exception", none, none, [], none, []⟩,
     ⟨cp.2.1, dbRollback se.2.1⟩,
     ev1 ++ cp.2.2 ++ dbr.2.2 ++ se.2.2 ++ [Event.rollback])
  else
    (⟨true, none, dbr.1.plugin_id, some plugin_slug, dbr.1.modules_created,
      some (pathStr dir), se.1.settings_created⟩,
     ⟨cp.2.1, dbCommit se.2.1⟩,
     ev1 ++ cp.2.2 ++ dbr.2.2 ++ se.2.2 ++ [Event.commit])

/-- The record-deletion half of `uninstall_plugin` (its body up to the
directory removal): stage deletion of every Module row referencing
`{user_id}_{slug}`, of the Plugin row when present, and of the user's
settings instance when present, returning the staged session view and
the deletion events in source order. -/
def stagedDeletions (userId : String) (st : Store) : Store × List Event :=
  let pid := pluginIdOf userId
  let modulesFound := st.modules.filter (fun m => decide (m.2 = pid))
  let st1 : Store :=
    { st with modules := st.modules.filter (fun m => !(decide (m.2 = pid))) }
  let ev1 := modulesFound.map (fun m => Event.dbDeleteModule m.1)
  let pluginFound := hasId st1.plugins pid
  let s2 : Store × List Event :=
    if pluginFound then
      ({ st1 with plugins := st1.plugins.filter (fun y => !(decide (y = pid))) },
       ev1 ++ [Event.dbDeletePlugin pid])
    else (st1, ev1)
  -- `scalar_one_or_none`: the filters are backed by a uniqueness
  -- constraint, so at most one row matches; modelled as the first match.
  let inst := (s2.1.settingsInstances.filter
      (fun i => decide (i.definitionId = settingsDefId) && decide (i.userId = userId))).head?
  match inst with
  | none => s2
  | some i =>
      ({ s2.1 with settingsInstances := s2.1.settingsInstances.filter (fun j => !(decide (j = i))) },
       s2.2 ++ [Event.dbDeleteInstance i.id])

/-- Model of `uninstall_plugin`: stage the record deletions, then remove the
on-disk directory when it exists, and only then commit.  A raising
`rmtree` (or a driver error) reaches the boundary handler, which rolls
back; the filesystem is modelled unchanged there (the exception is taken
to strike before any entry is removed). -/
def uninstallPlugin (f : Faults) (userId : String) (w : World) :
    UninstallResult × World × List Event :=
  if !f.queryOk then
    (⟨false, some "unexpected exception", none, 0, 0⟩,
     ⟨w.fs, dbRollback w.db⟩, [Event.rollback])
  else
  let pid := pluginIdOf userId
  let modulesFound := w.db.session.modules.filter (fun m => decide (m.2 = pid))
  let inst := (w.db.session.settingsInstances.filter
      (fun i => decide (i.definitionId = settingsDefId) && decide (i.userId = userId))).head?
  let sd := stagedDeletions userId w.db.session
  let dir := userPluginDir userId
  let dirExists := hasPath w.fs dir
  if dirExists && !f.rmtreeOk then
    (⟨false, some "unexpected exception", none, 0, 0⟩,
     ⟨w.fs, dbRollback ⟨w.db.committed, sd.1⟩⟩, sd.2 ++ [Event.rollback])
  else
  let fs1 := if dirExists then rmtree w.fs dir else w.fs
  let ev2 := if dirExists then sd.2 ++ [Event.rmtree dir] else sd.2
  if !f.commitOk then
    (⟨false, some "unexpected exception", none, 0, 0⟩,
     ⟨fs1, dbRollback ⟨w.db.committed, sd.1⟩⟩, ev2 ++ [Event.rollback])
  else
    (⟨true, none, some plugin_slug, modulesFound.length, if inst.isSome then 1 else 0⟩,
     ⟨fs1, dbCommit ⟨w.db.committed, sd.1⟩⟩, ev2 ++ [Event.commit])

/-! ## Archive builder (`build_archive.py`) -/

/-- Model of `s.startswith(p)` (over the character lists, so that it evaluates by
kernel reduction). -/
def strStartsWith (s p : String) : Bool :=
  decide (s.data.take p.data.length = p.data)

/-- Model of `s.endswith(p)` (over the character lists). -/
def strEndsWith (s p : String) : Bool :=
  decide (s.data.reverse.take p.data.length = p.data.reverse)

/-- Split a character list at every `/`. -/
def splitOnSlash : List Char → List (List Char)
  | [] => [[]]
  | c :: cs =>
      let r := splitOnSlash cs
      if c = '/' then [] :: r
      else
        match r with
        | [] => [[c]]
        | h :: t => (c :: h) :: t

/-- Model of `Path(name).parts` for the slash-separated relative names tar uses. -/
def pathParts (name : String) : List String :=
  (splitOnSlash name.data).map String.mk

/-- The exclusion filter passed to `tar.add`: `none` drops the entry,
`some` keeps the `tarinfo` unchanged. -/
def should_exclude_file (name : String) : Option String :=
  if (pathParts name).contains "node_modules" then none
  else if (pathParts name).contains ".git" then none
  else if strEndsWith name "package-lock.json" then none
  else some name

/-- The archive name of the entry at relative path `p` below the added
root, whose `arcname` is `plugin_name` (`p = []` is the root itself). -/
def memberName (plugin_name : String) (p : Path) : String :=
  String.intercalate "/" (plugin_name :: p)

/-- Model of the `tar.add(root, arcname, filter)` recursion: an entry lands in the
archive exactly when the filter keeps it and every directory above it
(the filter returning `none` on a directory prunes its whole subtree). -/
def includedInArchive (plugin_name : String) (p : Path) : Bool :=
  (List.range (p.length + 1)).all
    (fun k => (should_exclude_file (memberName plugin_name (p.take k))).isSome)

/-- The member-name list of the archive produced from the tree `cwd`
(the relative paths existing below the added root), in the root-first
order `tar.add` uses on a root named `plugin_name`.  The archive file
being written is skipped by `tarfile` itself and is not part of `cwd`. -/
def archiveMembers (plugin_name : String) (cwd : List Path) : List String :=
  (if (should_exclude_file plugin_name).isSome then [plugin_name] else [])
    ++ (cwd.filter (includedInArchive plugin_name)).map (memberName plugin_name)

/-- Model of `create_plugin_archive(plugin_name, version)`: returns the success
flag together with the archive file it creates and that archive's
members.  `cwd` is the tree below the current directory and `ioOk`
injects an I/O error during archive creation.  Faithful to the source:
`plugin_path` is the current directory itself — the assignment
`plugin_path = current_dir / plugin_name` is commented out there — so the
two validation branches test `Path(".")`, which always exists and is a
directory, and the walk covers the whole current directory. -/
def create_plugin_archive (plugin_name version : String) (cwd : List Path)
    (ioOk : Bool) : Bool × Option String × List String :=
  let v := if strStartsWith version "v" then version else "v" ++ version
  let archive_name := plugin_name ++ "-" ++ v ++ ".tar.gz"
  let plugin_path_exists := true
  let plugin_path_is_dir := true
  if !plugin_path_exists then (false, none, [])
  else if !plugin_path_is_dir then (false, none, [])
  else if !ioOk then (false, none, [])
  else (true, some archive_name, archiveMembers plugin_name cwd)

/-- The argparse namespace `main` receives (argparse itself exits with
code 2 before `main`'s body runs when the command line cannot be
parsed). -/
structure CliArgs where
  plugin_name : Option String
  version : Option String
  listMode : Bool
deriving Repr, DecidableEq

/-- Truthiness of an optional string argument: in
`if not args.plugin_name or not args.version` both `None` (the argument
was not supplied) and the empty string are falsy. -/
def argFalsy : Option String → Bool
  | none => true
  | some s => decide (s = "")

/-- Model of `main`: exit code of the process together with the list of files the
invocation created.  `--list` and falsy required arguments (absent or
empty, by Python truthiness) take the plain-`return` paths, which end the
process with code 0; only a failed `create_plugin_archive` reaches
`sys.exit(1)`.  Past the truthiness check both arguments are non-empty
strings, which `getD` extracts. -/
def main_exit (args : CliArgs) (cwd : List Path) (ioOk : Bool) :
    Nat × List String :=
  if args.listMode then (0, [])
  else if argFalsy args.plugin_name || argFalsy args.version then (0, [])
  else
    let r := create_plugin_archive (args.plugin_name.getD "") (args.version.getD "")
        cwd ioOk
    if r.1 then (0, r.2.1.toList) else (1, [])

/-! ## Concrete fixtures used by witnesses and counterexamples -/

/-- A store with no records at all. -/
def emptyStore : Store := ⟨[], [], [], []⟩

/-- The empty world: nothing installed, empty filesystem, clean session. -/
def emptyWorld : World := ⟨[], ⟨emptyStore, emptyStore⟩⟩

/-- A filesystem carrying the shared template with its `dist` output and
entry point. -/
def templateFS : FS :=
  [sourceDir, sourceDir ++ ["dist"], sourceDir ++ ["dist", "remoteEntry.js"]]

/-- The store after a successful install for user `alice`. -/
def aliceInstalledStore : Store :=
  ⟨["alice_BrainDriveOpenAI"], [("alice_componentOpenAIKeys", "alice_BrainDriveOpenAI")],
   [settingsDefId], [⟨"openai_settings_alice", settingsDefId, "alice"⟩]⟩

/-- A world where the plugin is fully installed for user `alice`. -/
def aliceInstalledWorld : World :=
  ⟨templateFS ++ [userPluginDir "alice", userPluginDir "alice" ++ ["dist"],
     userPluginDir "alice" ++ ["dist", "remoteEntry.js"]],
   ⟨aliceInstalledStore, aliceInstalledStore⟩⟩

/-- An environment whose only failure is the `rmtree` inside
`uninstall_plugin`. -/
def rmtreeFault : Faults := ⟨true, true, true, true, true, true, false, true⟩

/-- An environment whose only failure is the `db.execute` lookup. -/
def queryFault : Faults := ⟨false, true, true, true, true, true, true, true⟩

/-- A world with the shared settings definition already present (left by
another user's earlier install) and the template on disk. -/
def seededStore : Store := ⟨[], [], [settingsDefId], []⟩

/-- World for the pre-existing-definition scenario. -/
def seededWorld : World := ⟨templateFS, ⟨seededStore, seededStore⟩⟩

/-- A world where the template directory exists but carries no `dist/`
subtree. -/
def bareTemplateWorld : World := ⟨[sourceDir], ⟨emptyStore, emptyStore⟩⟩

/-! ## Basic lemmas about the filesystem model -/

lemma hasPath_iff_mem (fs : FS) (p : Path) : hasPath fs p = true ↔ p ∈ fs := by
  unfold hasPath
  rw [List.any_eq_true]
  constructor
  · rintro ⟨q, hq, hd⟩
    rw [of_decide_eq_true hd] at hq
    exact hq
  · intro hp
    exact ⟨p, hp, by simp⟩

lemma hasPath_cons (r : Path) (t : FS) (q : Path) :
    hasPath (r :: t) q = (decide (r = q) || hasPath t q) := by
  simp [hasPath, List.any_cons]

lemma hasPath_addPath (fs : FS) (p q : Path) :
    hasPath (addPath fs p) q = (hasPath fs q || decide (p = q)) := by
  unfold addPath
  by_cases h : hasPath fs p = true
  · rw [if_pos h]
    by_cases hpq : p = q
    · subst hpq; simp [h]
    · simp [hpq]
  · rw [if_neg h, hasPath_cons, Bool.or_comm]

lemma hasPath_foldl_addPath (l : List Path) (fs : FS) (q : Path) :
    hasPath (l.foldl addPath fs) q = (hasPath fs q || hasPath l q) := by
  induction l generalizing fs with
  | nil => simp [hasPath]
  | cons r t ih =>
      rw [List.foldl_cons, ih, hasPath_addPath, hasPath_cons]
      cases hasPath fs q <;> cases hasPath t q <;> simp [Bool.or_comm]

lemma hasPath_mkdirParents (fs : FS) (p q : Path) :
    hasPath (mkdirParents fs p) q = (hasPath fs q || hasPath (ancestorPaths p) q) := by
  unfold mkdirParents
  exact hasPath_foldl_addPath _ fs q

lemma underPath_refl (p : Path) : underPath p p = true := by
  induction p with
  | nil => rfl
  | cons a as ih => simp [underPath, ih]

lemma hasPath_rmtree (fs : FS) (p q : Path) :
    hasPath (rmtree fs p) q = (hasPath fs q && !(underPath p q)) := by
  induction fs with
  | nil => simp [rmtree, hasPath]
  | cons r t ih =>
      by_cases h : underPath p r = true
      · rw [show rmtree (r :: t) p = rmtree t p by simp [rmtree, h], ih, hasPath_cons]
        by_cases hrq : r = q
        · subst hrq; simp [h]
        · simp [hrq]
      · rw [show rmtree (r :: t) p = r :: rmtree t p by simp [rmtree, h],
            hasPath_cons, hasPath_cons, ih]
        by_cases hrq : r = q
        · subst hrq; simp [h]
        · simp [hrq]

lemma hasPath_eq_false_iff (fs : FS) (p : Path) : hasPath fs p = false ↔ p ∉ fs := by
  rw [← hasPath_iff_mem]
  cases hasPath fs p <;> simp

lemma self_mem_ancestorPaths (p : Path) (h : p ≠ []) : p ∈ ancestorPaths p := by
  have hl : 0 < p.length := List.length_pos.mpr h
  unfold ancestorPaths
  rw [List.mem_map]
  refine ⟨p.length - 1, ?_, ?_⟩
  · rw [List.mem_range]; omega
  · rw [Nat.sub_add_cancel hl, List.take_length]

lemma ancestorPaths_userPluginDir (u : String) :
    ancestorPaths (userPluginDir u)
      = [["plugins"], ["plugins", u], ["plugins", u, plugin_slug]] := rfl

lemma hasPath_userPluginDir_mkdir (fs : FS) (u : String) :
    hasPath (mkdirParents fs (userPluginDir u)) (userPluginDir u) = true := by
  rw [hasPath_mkdirParents]
  have hm : userPluginDir u ∈ ancestorPaths (userPluginDir u) :=
    self_mem_ancestorPaths (userPluginDir u) (by simp [userPluginDir])
  rw [Bool.or_eq_true]
  exact Or.inr ((hasPath_iff_mem _ _).mpr hm)

/-! ## Lemmas about the lifecycle operations -/

lemma commit_not_mem_stagedDeletions (u : String) (st : Store) :
    Event.commit ∉ (stagedDeletions u st).2 := by
  simp only [stagedDeletions]
  repeat' split
  all_goals simp [List.mem_map]

lemma exists_append_pair (l : List Event) (a b : Event) :
    ∃ evs, (l ++ [a]) ++ [b] = evs ++ [a, b] := ⟨l, by simp⟩

lemma exists_concat_of_getLast (l : List Event) (e : Event)
    (h : l.getLast? = some e) : ∃ evs, l = evs ++ [e] := by
  induction l using List.reverseRecOn with
  | nil => simp at h
  | append_singleton t a ih =>
      rw [List.getLast?_concat] at h
      obtain rfl : a = e := by injection h
      exact ⟨t, rfl⟩

lemma copyPluginFiles_fail (f : Faults) (dir : Path) (fs : FS)
    (h : (copyPluginFiles f dir fs).1.success = false) :
    (copyPluginFiles f dir fs).2.1 = fs ∧ (copyPluginFiles f dir fs).2.2 = [] ∧
    ((copyPluginFiles f dir fs).1.error
        = some ("Source plugin directory not found: " ++ pathStr sourceDir) ∨
      (copyPluginFiles f dir fs).1.error = some "I/O error while copying plugin files") ∧
    (hasPath fs sourceDir = false ∨ f.copyOk = false) := by
  by_cases h1 : hasPath fs sourceDir
  · by_cases h2 : f.copyOk
    · exfalso
      simp [copyPluginFiles, h1, h2] at h
    · simp only [Bool.not_eq_true] at h2
      simp [copyPluginFiles, h1, h2]
  · simp only [Bool.not_eq_true] at h1
    simp [copyPluginFiles, h1]

lemma createDatabaseRecords_committed (f : Faults) (u : String) (db : DB) :
    (createDatabaseRecords f u db).2.1.committed = db.committed := by
  unfold createDatabaseRecords
  split <;> rfl

lemma createSettings_committed (f : Faults) (u : String) (db : DB) :
    (createSettings f u db).2.1.committed = db.committed := by
  simp only [createSettings]
  split
  · rfl
  · split <;> rfl

lemma install_committed (f : Faults) (u : String) (w : World) :
    (installPlugin f u w).2.1.db.committed = w.db.committed ∨
    (installPlugin f u w).1.success = true := by
  simp only [installPlugin]
  repeat' split
  all_goals
    simp [dbRollback, dbCommit, createDatabaseRecords_committed, createSettings_committed]

lemma uninstall_committed (f : Faults) (u : String) (w : World) :
    (uninstallPlugin f u w).2.1.db.committed = w.db.committed ∨
    (uninstallPlugin f u w).1.success = true := by
  simp only [uninstallPlugin]
  repeat' split
  all_goals simp [dbRollback, dbCommit]

lemma install_success_plugin_id (f : Faults) (u : String) (w : World) :
    (installPlugin f u w).1.success = false ∨
    ((installPlugin f u w).1.plugin_id = some (pluginIdOf u) ∧
     (installPlugin f u w).1.modules_created = [u ++ "_componentOpenAIKeys"]) := by
  simp only [installPlugin]
  repeat' split
  all_goals try (left; rfl)
  by_cases hrf : f.recordsOk = true
  · right
    constructor <;> simp [createDatabaseRecords, hrf]
  · exfalso
    simp only [Bool.not_eq_true] at hrf
    simp_all [createDatabaseRecords]

lemma install_success_settings_created (f : Faults) (u : String) (w : World) :
    (installPlugin f u w).1.success = false ∨
    (installPlugin f u w).1.settings_created = [settingsDefId, "openai_settings_" ++ u] := by
  simp only [installPlugin]
  repeat' split
  all_goals try (left; rfl)
  by_cases hsf : f.settingsOk = true
  · right
    simp [createSettings, hsf]
  · exfalso
    simp only [Bool.not_eq_true] at hsf
    simp_all [createSettings]

lemma install_success_static (f : Faults) (u : String) (w : World) :
    (installPlugin f u w).1.success = false ∨
    ((installPlugin f u w).1.plugin_slug = some plugin_slug ∧
     (installPlugin f u w).1.plugin_directory = some (pathStr (userPluginDir u)) ∧
     (installPlugin f u w).2.1.db.committed = (installPlugin f u w).2.1.db.session) := by
  simp only [installPlugin]
  repeat' split
  all_goals try (left; rfl)
  right
  exact ⟨rfl, rfl, rfl⟩

lemma install_success_trace (f : Faults) (u : String) (w : World) :
    (installPlugin f u w).1.success = false ∨
    (installPlugin f u w).2.2.getLast? = some Event.commit := by
  simp only [installPlugin]
  repeat' split
  all_goals try (left; rfl)
  right
  exact List.getLast?_concat _

/-! ## Lemmas about the archive builder -/

lemma should_exclude_file_isSome (n : String)
    (h : (should_exclude_file n).isSome = true) : should_exclude_file n = some n := by
  unfold should_exclude_file at *
  split_ifs at h ⊢ <;> simp_all

/-! ## Claims -/

/-- C1, counterexample.  The claim states that uninstalling for an owner
with no Plugin record fails with `NotInstalled` and does not commit; in
the code `uninstall_plugin` has no such check — on the empty world it
returns success and commits the transaction. -/
theorem C1_counterexample :
    (uninstallPlugin noFaults "alice" emptyWorld).1.success = true ∧
    Event.commit ∈ (uninstallPlugin noFaults "alice" emptyWorld).2.2 := by
  decide

/-- C1, amended.  For an owner with no Plugin record (and no stray module
rows, settings instance, or directory), `uninstall_plugin` does not fail
with `NotInstalled`: it returns success with `modules_removed = 0` and
`settings_removed = 0`, deletes nothing and leaves the filesystem
untouched, but it does commit the transaction (the trace is exactly
`[commit]`, publishing the unchanged session view). -/
theorem C1_amended (f : Faults) (u : String) (w : World)
    (hq : f.queryOk = true) (hcm : f.commitOk = true)
    (hpl : hasId w.db.session.plugins (pluginIdOf u) = false)
    (hmod : w.db.session.modules.filter (fun m => decide (m.2 = pluginIdOf u)) = [])
    (hinst : w.db.session.settingsInstances.filter
        (fun i => decide (i.definitionId = settingsDefId) && decide (i.userId = u)) = [])
    (hdir : hasPath w.fs (userPluginDir u) = false) :
    (uninstallPlugin f u w).1.success = true ∧
    (uninstallPlugin f u w).1.modules_removed = 0 ∧
    (uninstallPlugin f u w).1.settings_removed = 0 ∧
    (uninstallPlugin f u w).2.1 = ⟨w.fs, w.db.session, w.db.session⟩ ∧
    (uninstallPlugin f u w).2.2 = [Event.commit] := by
  have hmod' : w.db.session.modules.filter (fun m => !(decide (m.2 = pluginIdOf u)))
      = w.db.session.modules := by
    rw [List.filter_eq_self]
    intro a ha
    have h2 := List.filter_eq_nil_iff.mp hmod a ha
    simpa using h2
  simp [uninstallPlugin, stagedDeletions, hq, hcm, hpl, hmod, hmod', hinst, hdir, dbCommit]

/-- Witness for C1_amended at a concrete input. -/
theorem C1_amended_witness :
    (uninstallPlugin noFaults "alice" emptyWorld).1.success = true ∧
    (uninstallPlugin noFaults "alice" emptyWorld).1.modules_removed = 0 ∧
    (uninstallPlugin noFaults "alice" emptyWorld).1.settings_removed = 0 ∧
    (uninstallPlugin noFaults "alice" emptyWorld).2.1
      = ⟨emptyWorld.fs, emptyWorld.db.session, emptyWorld.db.session⟩ ∧
    (uninstallPlugin noFaults "alice" emptyWorld).2.2 = [Event.commit] :=
  C1_amended noFaults "alice" emptyWorld rfl rfl rfl rfl rfl rfl

/-- C2, counterexample.  The claim states the database deletion commits
before the directory removal is attempted and that a directory-removal
failure does not reverse it; in the code the `rmtree` happens before
`db.commit()` (see the trace order on an installed world), and when the
`rmtree` raises, the staged deletions are rolled back and the records
survive. -/
theorem C2_counterexample :
    (uninstallPlugin noFaults "alice" aliceInstalledWorld).2.2 =
      [Event.dbDeleteModule "alice_componentOpenAIKeys",
       Event.dbDeletePlugin "alice_BrainDriveOpenAI",
       Event.dbDeleteInstance "openai_settings_alice",
       Event.rmtree (userPluginDir "alice"),
       Event.commit] ∧
    (uninstallPlugin rmtreeFault "alice" aliceInstalledWorld).1.success = false ∧
    (uninstallPlugin rmtreeFault "alice" aliceInstalledWorld).2.1.db
      = aliceInstalledWorld.db := by
  decide

/-- C2, amended.  In `uninstall_plugin` the on-disk directory removal is
attempted before the commit: when the removal raises, the transaction is
rolled back (no commit happens, the database is unchanged) and the
operation fails; in a fault-free run on a world with the directory
present, the trace ends with the removal immediately followed by the
commit. -/
theorem C2_amended (f : Faults) (u : String) (w : World)
    (hq : f.queryOk = true)
    (hdir : hasPath w.fs (userPluginDir u) = true) :
    (f.rmtreeOk = false →
       (uninstallPlugin f u w).1.success = false ∧
       (uninstallPlugin f u w).2.1 = ⟨w.fs, w.db.committed, w.db.committed⟩ ∧
       Event.commit ∉ (uninstallPlugin f u w).2.2) ∧
    (f.rmtreeOk = true → f.commitOk = true →
       ∃ evs, (uninstallPlugin f u w).2.2
         = evs ++ [Event.rmtree (userPluginDir u), Event.commit]) := by
  constructor
  · intro hr
    refine ⟨?_, ?_, ?_⟩
    · simp [uninstallPlugin, hq, hdir, hr]
    · simp [uninstallPlugin, hq, hdir, hr, dbRollback]
    · simp only [uninstallPlugin, hq, hdir, hr]
      simp only [Bool.not_true, Bool.not_false, Bool.and_true, if_true, ite_true]
      simp [commit_not_mem_stagedDeletions]
  · intro hr hcm
    simp only [uninstallPlugin, hq, hdir, hr, hcm]
    simp only [Bool.not_true, Bool.not_false, Bool.and_false, if_false,
      Bool.false_eq_true, ite_true, ite_false]
    exact exists_append_pair _ _ _

/-- Witness for C2_amended at a concrete input. -/
theorem C2_amended_witness :
    (rmtreeFault.rmtreeOk = false →
       (uninstallPlugin rmtreeFault "alice" aliceInstalledWorld).1.success = false ∧
       (uninstallPlugin rmtreeFault "alice" aliceInstalledWorld).2.1
         = ⟨aliceInstalledWorld.fs, aliceInstalledWorld.db.committed,
            aliceInstalledWorld.db.committed⟩ ∧
       Event.commit ∉ (uninstallPlugin rmtreeFault "alice" aliceInstalledWorld).2.2) ∧
    (rmtreeFault.rmtreeOk = true → rmtreeFault.commitOk = true →
       ∃ evs, (uninstallPlugin rmtreeFault "alice" aliceInstalledWorld).2.2
         = evs ++ [Event.rmtree (userPluginDir "alice"), Event.commit]) :=
  C2_amended rmtreeFault "alice" aliceInstalledWorld rfl (by decide)

/-- C3, confirmed.  When a Plugin record keyed `{owner_id}_{slug}` already
exists, `install_plugin` fails with the already-installed error, returns
the existing plugin identity, and performs no mutation: the world is
unchanged and the trace is empty. -/
theorem C3_confirmed (f : Faults) (u : String) (w : World)
    (hq : f.queryOk = true)
    (hpl : hasId w.db.session.plugins (pluginIdOf u) = true) :
    (installPlugin f u w).1 =
      ⟨false, some ("Plugin already installed for user " ++ u), some (pluginIdOf u),
       none, [], none, []⟩ ∧
    (installPlugin f u w).2.1 = w ∧
    (installPlugin f u w).2.2 = [] := by
  simp [installPlugin, checkExistingPlugin, hq, hpl]

/-- Witness for C3_confirmed at a concrete input. -/
theorem C3_confirmed_witness :
    (installPlugin noFaults "alice" aliceInstalledWorld).1 =
      ⟨false, some ("Plugin already installed for user " ++ "alice"),
       some (pluginIdOf "alice"), none, [], none, []⟩ ∧
    (installPlugin noFaults "alice" aliceInstalledWorld).2.1 = aliceInstalledWorld ∧
    (installPlugin noFaults "alice" aliceInstalledWorld).2.2 = [] :=
  C3_confirmed noFaults "alice" aliceInstalledWorld rfl (by decide)

/-- C4, confirmed.  When the file-staging step fails (missing template
directory or I/O error during copying), `install_plugin` invokes the
compensating cleanup — the trace is exactly the directory creation
followed by its removal — fails with the staging error, leaves the
database (session and committed store) exactly as before, and the
per-user directory does not exist afterwards. -/
theorem C4_confirmed (f : Faults) (u : String) (w : World)
    (hq : f.queryOk = true)
    (hpl : hasId w.db.session.plugins (pluginIdOf u) = false)
    (hm : f.mkdirOk = true) (hcl : f.cleanupOk = true)
    (hfail : (copyPluginFiles f (userPluginDir u)
        (mkdirParents w.fs (userPluginDir u))).1.success = false) :
    (installPlugin f u w).1.success = false ∧
    (installPlugin f u w).1.error
      = (copyPluginFiles f (userPluginDir u) (mkdirParents w.fs (userPluginDir u))).1.error ∧
    ((installPlugin f u w).1.error
        = some ("Source plugin directory not found: " ++ pathStr sourceDir) ∨
      (installPlugin f u w).1.error = some "I/O error while copying plugin files") ∧
    (installPlugin f u w).2.1.db = w.db ∧
    hasPath (installPlugin f u w).2.1.fs (userPluginDir u) = false ∧
    (installPlugin f u w).2.2
      = [Event.mkdir (userPluginDir u), Event.rmtree (userPluginDir u)] := by
  obtain ⟨hfs, hev, herr, _⟩ := copyPluginFiles_fail f _ _ hfail
  have hdir := hasPath_userPluginDir_mkdir w.fs u
  have hrm : hasPath (rmtree (mkdirParents w.fs (userPluginDir u)) (userPluginDir u))
      (userPluginDir u) = false := by
    rw [hasPath_rmtree, underPath_refl]
    simp
  simp [installPlugin, checkExistingPlugin, cleanupUserDirectory, hq, hpl, hm, hfail,
    hfs, hev, hdir, hcl, hrm, herr]

/-- Witness for C4_confirmed at a concrete input (template missing). -/
theorem C4_confirmed_witness :
    (installPlugin noFaults "alice" emptyWorld).1.success = false ∧
    (installPlugin noFaults "alice" emptyWorld).1.error
      = (copyPluginFiles noFaults (userPluginDir "alice")
          (mkdirParents emptyWorld.fs (userPluginDir "alice"))).1.error ∧
    ((installPlugin noFaults "alice" emptyWorld).1.error
        = some ("Source plugin directory not found: " ++ pathStr sourceDir) ∨
      (installPlugin noFaults "alice" emptyWorld).1.error
        = some "I/O error while copying plugin files") ∧
    (installPlugin noFaults "alice" emptyWorld).2.1.db = emptyWorld.db ∧
    hasPath (installPlugin noFaults "alice" emptyWorld).2.1.fs (userPluginDir "alice")
      = false ∧
    (installPlugin noFaults "alice" emptyWorld).2.2
      = [Event.mkdir (userPluginDir "alice"), Event.rmtree (userPluginDir "alice")] :=
  C4_confirmed noFaults "alice" emptyWorld rfl rfl rfl rfl (by decide)

/-- C5, counterexample.  The claim states the success result lists only
settings identities actually created by the call; when the shared
settings definition already exists (seeded world), the install succeeds,
stages no settings-definition row (no such event in the trace), yet its
`settings_created` still lists the definition id. -/
theorem C5_counterexample :
    (installPlugin noFaults "alice" seededWorld).1.success = true ∧
    (installPlugin noFaults "alice" seededWorld).1.settings_created
      = [settingsDefId, "openai_settings_alice"] ∧
    Event.dbAddSettingsDef settingsDefId ∉ (installPlugin noFaults "alice" seededWorld).2.2 ∧
    settingsDefId ∈ seededWorld.db.committed.settingsDefs := by
  decide

/-- C5, amended.  A successful `install_plugin` reports success only after
the commit (the trace ends with the commit event and the committed store
equals the session), and its result carries the new plugin identity, the
created module identity, the per-user directory path, and a
`settings_created` list that always names both the shared definition id
and the per-user instance id — whether or not the definition was created
by this call. -/
theorem C5_amended (f : Faults) (u : String) (w : World)
    (h : (installPlugin f u w).1.success = true) :
    (installPlugin f u w).1.plugin_id = some (pluginIdOf u) ∧
    (installPlugin f u w).1.plugin_slug = some plugin_slug ∧
    (installPlugin f u w).1.modules_created = [u ++ "_componentOpenAIKeys"] ∧
    (installPlugin f u w).1.plugin_directory = some (pathStr (userPluginDir u)) ∧
    (installPlugin f u w).1.settings_created = [settingsDefId, "openai_settings_" ++ u] ∧
    (∃ evs, (installPlugin f u w).2.2 = evs ++ [Event.commit]) ∧
    (installPlugin f u w).2.1.db.committed = (installPlugin f u w).2.1.db.session := by
  have hns : ¬(installPlugin f u w).1.success = false := by simp [h]
  obtain ⟨h1, h3⟩ := (install_success_plugin_id f u w).resolve_left hns
  obtain ⟨h2, h4, h7⟩ := (install_success_static f u w).resolve_left hns
  have h5 := (install_success_settings_created f u w).resolve_left hns
  have h6 := exists_concat_of_getLast _ _ ((install_success_trace f u w).resolve_left hns)
  exact ⟨h1, h2, h3, h4, h5, h6, h7⟩

/-- Witness for C5_amended at a concrete input. -/
theorem C5_amended_witness :
    (installPlugin noFaults "alice" seededWorld).1.plugin_id = some (pluginIdOf "alice") ∧
    (installPlugin noFaults "alice" seededWorld).1.plugin_slug = some plugin_slug ∧
    (installPlugin noFaults "alice" seededWorld).1.modules_created
      = ["alice" ++ "_componentOpenAIKeys"] ∧
    (installPlugin noFaults "alice" seededWorld).1.plugin_directory
      = some (pathStr (userPluginDir "alice")) ∧
    (installPlugin noFaults "alice" seededWorld).1.settings_created
      = [settingsDefId, "openai_settings_" ++ "alice"] ∧
    (∃ evs, (installPlugin noFaults "alice" seededWorld).2.2 = evs ++ [Event.commit]) ∧
    (installPlugin noFaults "alice" seededWorld).2.1.db.committed
      = (installPlugin noFaults "alice" seededWorld).2.1.db.session :=
  C5_amended noFaults "alice" seededWorld (by decide)

/-- C6, code bug.  The claim (and the script's own documentation, help
text and error message) say the archive builder walks the tree rooted at
the named source directory and fails when it does not exist; the code
assigns `plugin_path = current_dir` (the line using the name is commented
out), so with `plugin_name = "NoSuchDir"` absent from a working directory
holding only `README.md` it still succeeds and archives the whole current
directory under the name `NoSuchDir`. -/
theorem C6_codebug :
    create_plugin_archive "NoSuchDir" "1.0" [["README.md"]] true
      = (true, some "NoSuchDir-v1.0.tar.gz", ["NoSuchDir", "NoSuchDir/README.md"]) := by
  decide

/-- C7, confirmed.  The exclusion filter drops a member exactly when one
of its path components is `node_modules`, one is `.git`, or its name ends
with `package-lock.json`; otherwise it returns the entry unchanged, and
every member of a produced archive passes the filter (no excluded path
appears in the member list). -/
theorem C7_confirmed (name plugin_name : String) (cwd : List Path) :
    (should_exclude_file name = none ↔
      ("node_modules" ∈ pathParts name ∨ ".git" ∈ pathParts name ∨
        strEndsWith name "package-lock.json" = true)) ∧
    (¬("node_modules" ∈ pathParts name ∨ ".git" ∈ pathParts name ∨
        strEndsWith name "package-lock.json" = true) →
      should_exclude_file name = some name) ∧
    (∀ m ∈ archiveMembers plugin_name cwd, should_exclude_file m = some m) := by
  refine ⟨?_, ?_, ?_⟩
  · unfold should_exclude_file
    split_ifs with h1 h2 h3 <;> simp_all [List.elem_iff]
  · intro hn
    unfold should_exclude_file
    push_neg at hn
    obtain ⟨hn1, hn2, hn3⟩ := hn
    rw [if_neg, if_neg, if_neg]
    · simpa using hn3
    · simpa [List.elem_iff] using hn2
    · simpa [List.elem_iff] using hn1
  · intro m hm
    unfold archiveMembers at hm
    rw [List.mem_append] at hm
    rcases hm with hm | hm
    · by_cases hroot : (should_exclude_file plugin_name).isSome = true
      · rw [if_pos hroot] at hm
        rw [List.mem_singleton] at hm
        subst hm
        exact should_exclude_file_isSome _ hroot
      · rw [if_neg hroot] at hm
        simp at hm
    · obtain ⟨p, hp, rfl⟩ := List.mem_map.mp hm
      have hincl := (List.mem_filter.mp hp).2
      unfold includedInArchive at hincl
      have hk := List.all_eq_true.mp hincl p.length (by simp [List.mem_range])
      rw [List.take_length] at hk
      exact should_exclude_file_isSome _ hk

/-- Witness for C7_confirmed at a concrete input. -/
theorem C7_confirmed_witness :
    (should_exclude_file "a/node_modules/b" = none ↔
      ("node_modules" ∈ pathParts "a/node_modules/b" ∨
        ".git" ∈ pathParts "a/node_modules/b" ∨
        strEndsWith "a/node_modules/b" "package-lock.json" = true)) ∧
    (¬("node_modules" ∈ pathParts "a/node_modules/b" ∨
        ".git" ∈ pathParts "a/node_modules/b" ∨
        strEndsWith "a/node_modules/b" "package-lock.json" = true) →
      should_exclude_file "a/node_modules/b" = some "a/node_modules/b") ∧
    (∀ m ∈ archiveMembers "P" [["src", "a.js"]], should_exclude_file m = some m) :=
  C7_confirmed "a/node_modules/b" "P" [["src", "a.js"]]

/-- C8, counterexample.  The claim states the CLI exits with code 1 on
every failure, including missing or invalid arguments; with both
positional arguments missing, `main` prints the help and an error message
but returns normally, so the process exits with code 0 — and the same
happens for an empty-string argument, which Python's truthiness check
treats as missing (exit 0, no file produced). -/
theorem C8_counterexample :
    (main_exit ⟨none, none, false⟩ [] true).1 = 0 ∧
    (main_exit ⟨none, none, false⟩ [] true).1 ≠ 1 ∧
    (main_exit ⟨some "", some "1.0", false⟩ [] true).1 = 0 ∧
    (main_exit ⟨some "", some "1.0", false⟩ [] true).2 = [] := by
  decide

/-- C8, amended.  The CLI exits with code 1 exactly when `--list` is
absent, both positional arguments are supplied and non-empty (Python's
truthiness check treats an empty string like a missing argument: error
message, exit 0, no file), and archive creation fails; every other path
through `main` exits 0 (and argparse rejects malformed command lines with
exit code 2 before `main`'s body runs).  On success it has produced the
file `{name}-{version}.tar.gz` with the version normalized to a
`v`-prefixed form. -/
theorem C8_amended (args : CliArgs) (cwd : List Path) (ioOk : Bool) :
    ((main_exit args cwd ioOk).1 = 0 ∨ (main_exit args cwd ioOk).1 = 1) ∧
    ((main_exit args cwd ioOk).1 = 1 ↔
      (args.listMode = false ∧ argFalsy args.plugin_name = false ∧
        argFalsy args.version = false ∧ ioOk = false)) ∧
    (∀ n v, args.listMode = false → args.plugin_name = some n → n ≠ "" →
      args.version = some v → v ≠ "" → ioOk = true →
      (main_exit args cwd ioOk).1 = 0 ∧
      (main_exit args cwd ioOk).2
        = [n ++ "-" ++ (if strStartsWith v "v" then v else "v" ++ v) ++ ".tar.gz"]) := by
  obtain ⟨pn, ver, lm⟩ := args
  refine ⟨?_, ?_, ?_⟩
  · cases lm
    · cases hf : argFalsy pn <;> cases hg : argFalsy ver <;> cases ioOk <;>
        simp [main_exit, hf, hg, create_plugin_archive]
    · simp [main_exit]
  · cases lm
    · cases hf : argFalsy pn <;> cases hg : argFalsy ver <;> cases ioOk <;>
        simp [main_exit, hf, hg, create_plugin_archive]
    · simp [main_exit]
  · intro n v hl hn hne hv hve hio
    subst hl hn hv hio
    have hf : argFalsy (some n) = false := by simp [argFalsy, hne]
    have hg : argFalsy (some v) = false := by simp [argFalsy, hve]
    simp [main_exit, hf, hg, create_plugin_archive]

/-- Witness for C8_amended at a concrete input. -/
theorem C8_amended_witness :
    (main_exit ⟨some "A", some "1.0", false⟩ [] true).1 = 0 ∧
    (main_exit ⟨some "A", some "1.0", false⟩ [] true).2
      = ["A" ++ "-" ++ (if strStartsWith "1.0" "v" then "1.0" else "v" ++ "1.0")
          ++ ".tar.gz"] :=
  (C8_amended ⟨some "A", some "1.0", false⟩ [] true).2.2 "A" "1.0" rfl rfl
    (by decide) rfl (by decide) rfl

/-- C9, confirmed.  Both operations always return a structured result (the
model is a total function into the result type); whenever the result is a
failure the committed store is unchanged, and on an unexpected error in
the very first database access both operations roll back, leaving the
session equal to the committed store, and report failure. -/
theorem C9_confirmed (f : Faults) (u : String) (w : World) :
    ((installPlugin f u w).1.success = false →
        (installPlugin f u w).2.1.db.committed = w.db.committed) ∧
    ((uninstallPlugin f u w).1.success = false →
        (uninstallPlugin f u w).2.1.db.committed = w.db.committed) ∧
    (f.queryOk = false →
        (installPlugin f u w).1.success = false ∧
        (installPlugin f u w).2.1.db = ⟨w.db.committed, w.db.committed⟩ ∧
        (uninstallPlugin f u w).1.success = false ∧
        (uninstallPlugin f u w).2.1.db = ⟨w.db.committed, w.db.committed⟩) := by
  refine ⟨?_, ?_, ?_⟩
  · intro h
    rcases install_committed f u w with hc | hs
    · exact hc
    · rw [h] at hs; exact absurd hs (by simp)
  · intro h
    rcases uninstall_committed f u w with hc | hs
    · exact hc
    · rw [h] at hs; exact absurd hs (by simp)
  · intro hqf
    refine ⟨?_, ?_, ?_, ?_⟩ <;> simp [installPlugin, uninstallPlugin, hqf, dbRollback]

/-- Witness for C9_confirmed at a concrete input. -/
theorem C9_confirmed_witness :
    (installPlugin queryFault "alice" emptyWorld).1.success = false ∧
    (installPlugin queryFault "alice" emptyWorld).2.1.db
      = ⟨emptyWorld.db.committed, emptyWorld.db.committed⟩ ∧
    (uninstallPlugin queryFault "alice" emptyWorld).1.success = false ∧
    (uninstallPlugin queryFault "alice" emptyWorld).2.1.db
      = ⟨emptyWorld.db.committed, emptyWorld.db.committed⟩ :=
  (C9_confirmed queryFault "alice" emptyWorld).2.2 rfl

/-- C10, confirmed.  When the template directory exists but its `dist/`
subtree is absent, file staging reports success without copying it; the
missing entry point is then caught by validation, which fails the install
with the dist-not-found error, rolls the transaction back and removes the
per-user directory.  Moreover the staging step can fail only because the
top-level template directory is missing or an I/O error struck during
copying. -/
theorem C10_confirmed :
    (∀ (f : Faults) (u : String) (w : World),
      f.queryOk = true →
      hasId w.db.session.plugins (pluginIdOf u) = false →
      f.mkdirOk = true → f.copyOk = true → f.cleanupOk = true →
      f.recordsOk = true → f.settingsOk = true →
      hasPath w.fs sourceDir = true →
      hasPath w.fs (sourceDir ++ ["dist"]) = false →
      hasPath w.fs (userPluginDir u ++ ["dist"]) = false →
      (copyPluginFiles f (userPluginDir u) (mkdirParents w.fs (userPluginDir u))).1.success
          = true ∧
      (installPlugin f u w).1.success = false ∧
      (installPlugin f u w).1.error = some "Plugin dist directory not found" ∧
      (installPlugin f u w).2.1.db = ⟨w.db.committed, w.db.committed⟩ ∧
      hasPath (installPlugin f u w).2.1.fs (userPluginDir u) = false) ∧
    (∀ (f : Faults) (dir : Path) (fs : FS),
      (copyPluginFiles f dir fs).1.success = false →
      hasPath fs sourceDir = false ∨ f.copyOk = false) := by
  constructor
  · intro f u w hq hpl hm hco hcl hr hs hsrc hnd hud
    have hfs1src : hasPath (mkdirParents w.fs (userPluginDir u)) sourceDir = true := by
      rw [hasPath_mkdirParents, hsrc]
      simp
    have hfs1dist : hasPath (mkdirParents w.fs (userPluginDir u)) (sourceDir ++ ["dist"])
        = false := by
      rw [hasPath_mkdirParents, hnd]
      simp only [Bool.false_or]
      rw [ancestorPaths_userPluginDir, hasPath_eq_false_iff]
      simp [sourceDir, plugin_slug]
    have hfs1udist : hasPath (mkdirParents w.fs (userPluginDir u))
        (userPluginDir u ++ ["dist"]) = false := by
      rw [hasPath_mkdirParents, hud]
      simp only [Bool.false_or]
      rw [ancestorPaths_userPluginDir, hasPath_eq_false_iff]
      simp [userPluginDir, plugin_slug]
    have hfs1dir : hasPath (mkdirParents w.fs (userPluginDir u)) (userPluginDir u) = true :=
      hasPath_userPluginDir_mkdir w.fs u
    by_cases hpk : hasPath (mkdirParents w.fs (userPluginDir u))
        (sourceDir ++ ["package.json"]) = true
    · have hcp : copyPluginFiles f (userPluginDir u) (mkdirParents w.fs (userPluginDir u))
          = (⟨true, none⟩,
             addPath (mkdirParents w.fs (userPluginDir u)) (userPluginDir u ++ ["package.json"]),
             [Event.copyFile (sourceDir ++ ["package.json"])
               (userPluginDir u ++ ["package.json"])]) := by
        simp [copyPluginFiles, hfs1src, hco, hfs1dist, hpk]
      have hXdist : hasPath (addPath (mkdirParents w.fs (userPluginDir u))
          (userPluginDir u ++ ["package.json"])) (userPluginDir u ++ ["dist"]) = false := by
        rw [hasPath_addPath, hfs1udist]
        simp
      have hXdir : hasPath (addPath (mkdirParents w.fs (userPluginDir u))
          (userPluginDir u ++ ["package.json"])) (userPluginDir u) = true := by
        rw [hasPath_addPath, hfs1dir]
        simp
      refine ⟨by simp [hcp], ?_, ?_, ?_, ?_⟩ <;>
        simp [installPlugin, checkExistingPlugin, hq, hpl, hm, hcp, createDatabaseRecords,
          hr, createSettings, hs, validateInstallation, hXdist, cleanupUserDirectory, hcl,
          hXdir, dbRollback, hasPath_rmtree, underPath_refl, apply_ite]
    · have hcp : copyPluginFiles f (userPluginDir u) (mkdirParents w.fs (userPluginDir u))
          = (⟨true, none⟩, mkdirParents w.fs (userPluginDir u), []) := by
        simp only [Bool.not_eq_true] at hpk
        simp [copyPluginFiles, hfs1src, hco, hfs1dist, hpk]
      refine ⟨by simp [hcp], ?_, ?_, ?_, ?_⟩ <;>
        simp [installPlugin, checkExistingPlugin, hq, hpl, hm, hcp, createDatabaseRecords,
          hr, createSettings, hs, validateInstallation, hfs1udist, cleanupUserDirectory, hcl,
          hfs1dir, dbRollback, hasPath_rmtree, underPath_refl, apply_ite]
  · intro f dir fs h
    exact (copyPluginFiles_fail f dir fs h).2.2.2

/-- Witness for C10_confirmed at a concrete input (template present, no
`dist/`). -/
theorem C10_confirmed_witness :
    (copyPluginFiles noFaults (userPluginDir "alice")
        (mkdirParents bareTemplateWorld.fs (userPluginDir "alice"))).1.success = true ∧
    (installPlugin noFaults "alice" bareTemplateWorld).1.success = false ∧
    (installPlugin noFaults "alice" bareTemplateWorld).1.error
      = some "Plugin dist directory not found" ∧
    (installPlugin noFaults "alice" bareTemplateWorld).2.1.db
      = ⟨bareTemplateWorld.db.committed, bareTemplateWorld.db.committed⟩ ∧
    hasPath (installPlugin noFaults "alice" bareTemplateWorld).2.1.fs
      (userPluginDir "alice") = false :=
  C10_confirmed.1 noFaults "alice" bareTemplateWorld rfl rfl rfl rfl rfl rfl rfl
    (by decide) (by decide) (by decide)

end BrainDrive
